import Mathlib

/-!
Shallow embedding of the storefront presentation layer
(`src/apps/core/app/(default)/product/[slug]/page.tsx` and the web-page
route module) for verification of its specification.

JavaScript numbers are modelled exactly: a `JsNum` is NaN, ±Infinity, or a
rational value.  (IEEE-754 rounding of decimal literals is not modelled; no
property below depends on rounding, only on NaN-ness and integer-ness of
small literals.)  Remote commerce-API fetches (`getProduct`, `getWebPage`,
`getReCaptchaSettings`) are external collaborators: the page functions are
modelled as functions of the fetch results.
-/

/-- Result of JavaScript `Number(...)` coercion: NaN, an infinity, or a
finite value (modelled as an exact rational). -/
inductive JsNum where
  | nan : JsNum
  | inf : JsNum
  | negInf : JsNum
  | val : ℚ → JsNum
deriving DecidableEq

/-- `StrWhiteSpace` characters trimmed by `Number(string)` (ASCII whitespace
plus NBSP and the BOM; the rarer Unicode space characters are omitted, no
claim exercises them). -/
def isJsWhitespace (c : Char) : Bool :=
  c = ' ' || c = '\t' || c = '\n' || c = '\r' ||
    c = '\x0b' || c = '\x0c' || c = ' ' || c = '﻿'

/-- Trim JS whitespace from both ends of a character list. -/
def jsTrim (cs : List Char) : List Char :=
  ((cs.dropWhile isJsWhitespace).reverse.dropWhile isJsWhitespace).reverse

/-- Decimal digit value of a character. -/
def decDigit? (c : Char) : Option Nat :=
  if '0' ≤ c ∧ c ≤ '9' then some (c.toNat - 48) else none

/-- Hexadecimal digit value of a character. -/
def hexDigit? (c : Char) : Option Nat :=
  if '0' ≤ c ∧ c ≤ '9' then some (c.toNat - 48)
  else if 'a' ≤ c ∧ c ≤ 'f' then some (c.toNat - 87)
  else if 'A' ≤ c ∧ c ≤ 'F' then some (c.toNat - 55)
  else none

/-- Octal digit value of a character. -/
def octDigit? (c : Char) : Option Nat :=
  if '0' ≤ c ∧ c ≤ '7' then some (c.toNat - 48) else none

/-- Binary digit value of a character. -/
def binDigit? (c : Char) : Option Nat :=
  if c = '0' ∨ c = '1' then some (c.toNat - 48) else none

/-- Read a non-empty digit string in the given base; `none` when empty or
when a character is not a digit of the base. -/
def digitsToNat? (digit? : Char → Option Nat) (base : Nat) (cs : List Char) :
    Option Nat :=
  if cs.isEmpty then none
  else cs.foldl (fun acc c =>
    match acc, digit? c with
    | some n, some d => some (n * base + d)
    | _, _ => none) (some 0)

/-- Split a list at the first character satisfying `p`; the matching
character is dropped and the remainder returned as `some`. -/
def splitAtChar (p : Char → Bool) : List Char → List Char × Option (List Char)
  | [] => ([], none)
  | c :: rest =>
    if p c then ([], some rest)
    else
      let r := splitAtChar p rest
      (c :: r.1, r.2)

/-- True when every character is a decimal digit (vacuously on `[]`). -/
def allDecDigits (cs : List Char) : Bool :=
  cs.all (fun c => (decDigit? c).isSome)

/-- Value of a (possibly empty) decimal digit string. -/
def decNat (cs : List Char) : Nat :=
  cs.foldl (fun n c => n * 10 + (c.toNat - 48)) 0

/-- Parse the `ExponentPart` digits (after `e`/`E`): optional sign then a
non-empty digit string. -/
def parseExp (cs : List Char) : Option ℤ :=
  match cs with
  | '+' :: rest =>
    if rest ≠ [] ∧ allDecDigits rest then some (decNat rest : ℤ) else none
  | '-' :: rest =>
    if rest ≠ [] ∧ allDecDigits rest then some (-(decNat rest : ℤ)) else none
  | _ =>
    if cs ≠ [] ∧ allDecDigits cs then some (decNat cs : ℤ) else none

/-- Exact value of an unsigned decimal mantissa `ip . fp` (the fraction-free
branch is split out so that integer literals evaluate without rational
arithmetic). -/
def mantVal (ip fp : List Char) : ℚ :=
  if fp.isEmpty then (decNat ip : ℚ)
  else (decNat ip : ℚ) + (decNat fp : ℚ) / ((10 : ℚ) ^ fp.length)

/-- Parse an unsigned `DecimalLiteral` (digits, optional fraction, optional
exponent); `none` when the grammar is violated. -/
def parseDec (cs : List Char) : Option ℚ :=
  let m := splitAtChar (fun c => c = 'e' ∨ c = 'E') cs
  let ipfp := splitAtChar (fun c => c = '.') m.1
  let fp := ipfp.2.getD []
  if allDecDigits ipfp.1 ∧ allDecDigits fp ∧
      (ipfp.1 ≠ [] ∨ (ipfp.2.isSome ∧ fp ≠ [])) then
    match m.2 with
    | none => some (mantVal ipfp.1 fp)
    | some e =>
      match parseExp e with
      | some z => some (mantVal ipfp.1 fp * (10 : ℚ) ^ z)
      | none => none
  else none

/-- Parse after an optional sign: `Infinity` or a decimal literal. -/
def jsUnsigned (cs : List Char) (neg : Bool) : JsNum :=
  if cs = "Infinity".data then (if neg then .negInf else .inf)
  else
    match parseDec cs with
    | some q => .val (if neg then -q else q)
    | none => .nan

/-- Handle the optional leading sign of a numeric literal. -/
def jsSigned (cs : List Char) : JsNum :=
  match cs with
  | '+' :: rest => jsUnsigned rest false
  | '-' :: rest => jsUnsigned rest true
  | _ => jsUnsigned cs false

/-- JavaScript `Number(string)` (ECMAScript `StringToNumber`): trim
whitespace; empty means `0`; `0x`/`0o`/`0b` radix literals (unsigned);
otherwise a signed decimal literal or `Infinity`; anything else is NaN. -/
def jsNumber (s : String) : JsNum :=
  let cs := jsTrim s.data
  match cs with
  | [] => .val 0
  | '0' :: c :: rest =>
    if c = 'x' ∨ c = 'X' then
      match digitsToNat? hexDigit? 16 rest with
      | some n => .val (n : ℚ)
      | none => .nan
    else if c = 'o' ∨ c = 'O' then
      match digitsToNat? octDigit? 8 rest with
      | some n => .val (n : ℚ)
      | none => .nan
    else if c = 'b' ∨ c = 'B' then
      match digitsToNat? binDigit? 2 rest with
      | some n => .val (n : ℚ)
      | none => .nan
    else jsSigned cs
  | _ => jsSigned cs

/-- A value of a Next.js search-params record:
`string | string[] | undefined`. -/
inductive JsVal where
  | str : String → JsVal
  | arr : List String → JsVal
  | undef : JsVal
deriving DecidableEq

/-- `Number(x)` on a search-param value: arrays coerce through their
comma-joined string form, `undefined` coerces to NaN. -/
def jsValNumber : JsVal → JsNum
  | .str s => jsNumber s
  | .arr l => jsNumber (String.intercalate "," l)
  | .undef => .nan

/-- True for a finite value that is an integer. -/
def JsNum.isInteger : JsNum → Bool
  | .val q => q.den == 1
  | _ => false

/-- A product-page option/value selection entry built by the `Product` page
component and passed to the `getProduct` fetch. -/
structure OptionValueId where
  optionEntityId : JsNum
  valueEntityId : JsNum
deriving DecidableEq

/-- The option-selection filter of the `Product` page component
(`page.tsx` lines 197-206): drop the `slug` key, coerce every remaining
key and its value with `Number`, and keep a pair only when neither
component is NaN.  Search params are modelled as an association list with
distinct keys (as produced by `Object.keys`). -/
def optionValueIds (searchParams : List (String × JsVal)) : List OptionValueId :=
  ((searchParams.filter (fun kv => kv.1 ≠ "slug")).map
    (fun kv => OptionValueId.mk (jsNumber kv.1) (jsValNumber kv.2))).filter
    (fun o => o.optionEntityId ≠ .nan ∧ o.valueEntityId ≠ .nan)

/-- A catalog image of the product's `images` list. -/
structure Image where
  url : String
  altText : String
  isDefault : Bool
deriving DecidableEq

/-- The product's canonical top-level `defaultImage` (nullable). -/
structure DefaultImage where
  url : String
  altText : String
deriving DecidableEq

/-- Clear an image's default flag (`image.isDefault = false`). -/
def clearDefault (i : Image) : Image :=
  Image.mk i.url i.altText false

/-- Image reconciliation of the `Product` page component (`page.tsx`
lines 214-231): when `product.defaultImage` exists and its URL differs
from the URL of the first catalog image flagged default (`Array.find`),
every flag is cleared and a new flagged entry is appended; otherwise the
list is returned as fetched. -/
def reconcileImages (images : List Image) (defaultImage : Option DefaultImage) :
    List Image :=
  match defaultImage with
  | none => images
  | some d =>
    if (images.find? (fun i => i.isDefault)).map Image.url ≠ some d.url then
      images.map clearDefault ++ [Image.mk d.url d.altText true]
    else images

/-- The price fields consumed by `ProductDetails` (`page.tsx` lines 22-73).
Money amounts are modelled as exact rationals; optional sub-objects
(`retailPrice?.value` etc.) collapse to `Option ℚ`. -/
structure Prices where
  priceRangeMin : ℚ
  priceRangeMax : ℚ
  retailPrice : Option ℚ
  salePrice : Option ℚ
  basePrice : Option ℚ
  price : Option ℚ
deriving DecidableEq

/-- One rendered line of the price block. -/
inductive PriceLine where
  | rangeLine : ℚ → ℚ → PriceLine
  | msrpLine : ℚ → PriceLine
  | wasLine : ℚ → PriceLine
  | nowLine : ℚ → PriceLine
  | plainLine : ℚ → PriceLine
deriving DecidableEq

/-- Whether a price line renders struck through (`line-through`):
the MSRP line and the Was line are struck, all others are not. -/
def PriceLine.struck : PriceLine → Bool
  | .msrpLine _ => true
  | .wasLine _ => true
  | _ => false

/-- The price block of `ProductDetails` (`page.tsx` lines 38-73), top to
bottom: the range when `min.value !== max.value`; otherwise the optional
MSRP strikethrough line, then either Was/Now (when both `salePrice` and
`basePrice` are present) or the plain price (when `price.value` is truthy,
i.e. present and nonzero). -/
def priceLines (p : Prices) : List PriceLine :=
  if p.priceRangeMin ≠ p.priceRangeMax then
    [.rangeLine p.priceRangeMin p.priceRangeMax]
  else
    (match p.retailPrice with
     | some r => [.msrpLine r]
     | none => []) ++
    (match p.salePrice, p.basePrice with
     | some s, some b => [.wasLine b, .nowLine s]
     | _, _ =>
       match p.price with
       | some v => if v ≠ 0 then [.plainLine v] else []
       | none => [])

/-- SEO fields of a fetched entity (`product.seo` / `webpage.seo`).
Nullable upstream strings are modelled as `String` with `""` for null;
both are falsy in the JS conditionals below. -/
structure Seo where
  pageTitle : String
  metaDescription : String
  metaKeywords : String
deriving DecidableEq

/-- JS truthiness of a string: only the empty string is falsy. -/
def jsTruthyStr (s : String) : Bool :=
  s ≠ ""

/-- The product entity fields consumed by the modelled page functions. -/
structure Product where
  name : String
  plainTextDescription : String
  seo : Seo
  defaultImage : Option DefaultImage
  images : List Image
  prices : Option Prices
deriving DecidableEq

/-- The metadata object built by the product page's `generateMetadata`. -/
structure PageMetadata where
  title : Option String
  description : Option String
  keywords : Option (List String)
  openGraphImage : Option (String × String)
deriving DecidableEq

/-- The empty metadata object `{}`. -/
def emptyMetadata : PageMetadata :=
  PageMetadata.mk none none none none

/-- Outcome of a metadata-generation step for a product page: a 404 signal
or a metadata object. -/
inductive MetaResult where
  | notFound : MetaResult
  | meta : PageMetadata → MetaResult
deriving DecidableEq

/-- `generateMetadata` of the product page (`page.tsx` lines 167-193),
as a function of the `getProduct` fetch result (the fetch itself is an
external collaborator).  When the product is absent it returns the empty
metadata object `{}`; otherwise title falls back from `seo.pageTitle` to
`product.name` (JS `||`), the description to a 150-character slice of the
plain-text description, keywords are split on commas when truthy, and the
Open Graph image is taken from `defaultImage` when its URL is truthy. -/
def productGenerateMetadata (fetched : Option Product) : MetaResult :=
  match fetched with
  | none => .meta emptyMetadata
  | some product =>
    .meta (PageMetadata.mk
      (some (if jsTruthyStr product.seo.pageTitle then product.seo.pageTitle
             else product.name))
      (some (if jsTruthyStr product.seo.metaDescription then
               product.seo.metaDescription
             else product.plainTextDescription.take 150 ++ "..."))
      (if jsTruthyStr product.seo.metaKeywords then
         some (product.seo.metaKeywords.splitOn ",")
       else none)
      (match product.defaultImage with
       | some d => if jsTruthyStr d.url then some (d.url, d.altText) else none
       | none => none))

/-- Outcome of the product page-render step: a 404 signal or the rendered
page, carrying the image list handed to the gallery after reconciliation. -/
inductive ProductRender where
  | notFound : ProductRender
  | page : List Image → ProductRender
deriving DecidableEq

/-- The `Product` page component (`page.tsx` lines 195-247) as a function
of the `getProduct` fetch result: absent product renders `notFound()`;
otherwise the gallery receives the reconciled image list. -/
def productPageRender (fetched : Option Product) : ProductRender :=
  match fetched with
  | none => .notFound
  | some product => .page (reconcileImages product.images product.defaultImage)

/-- Page-type tag of a fetched web page (`__typename`). -/
inductive PageType where
  | contactPage : PageType
  | normalPage : PageType
  | other : String → PageType
deriving DecidableEq

/-- A fetched web page entity. -/
structure WebPage where
  name : String
  htmlBody : String
  pageType : PageType
  entityId : ℤ
  seo : Seo
  contactFields : List String
deriving DecidableEq

/-- Metadata produced by the web-page route's `generateMetadata`. -/
structure WebPageMetadata where
  title : String
  description : String
  keywords : String
deriving DecidableEq

/-- Outcome of the web-page metadata-generation step. -/
inductive WebMetaResult where
  | notFound : WebMetaResult
  | meta : WebPageMetadata → WebMetaResult
deriving DecidableEq

/-- `generateMetadata` of the web-page route (unnamed source, lines 39-54),
as a function of the `getWebPage` fetch result: an absent page raises
`notFound()`. -/
def webGenerateMetadata (fetched : Option WebPage) : WebMetaResult :=
  match fetched with
  | none => .notFound
  | some w =>
    .meta (WebPageMetadata.mk w.seo.pageTitle w.seo.metaDescription
      w.seo.metaKeywords)

/-- Outcome of the web-page render step: 404, the contact view (with the
externally fetched reCAPTCHA settings), or the normal content view. -/
inductive WebRender where
  | notFound : WebRender
  | contactView : String → String → List String → ℤ → String → WebRender
  | normalView : String → String → WebRender
deriving DecidableEq

/-- The `WebPage` component (unnamed source, lines 56-86) as a function of
the `getWebPage` fetch result and the reCAPTCHA settings (an external
fetch, performed only on the contact branch): absent page renders
`notFound()`; `ContactPage` renders content plus the contact form; any
other tag renders the plain content view. -/
def webPageRender (fetched : Option WebPage) (reCaptchaSettings : String) :
    WebRender :=
  match fetched with
  | none => .notFound
  | some w =>
    match w.pageType with
    | .contactPage =>
      .contactView w.htmlBody w.name w.contactFields w.entityId reCaptchaSettings
    | _ => .normalView w.htmlBody w.name

/-- Images produced by `clearDefault` are never flagged default, so
`Array.find` sees none of them. -/
theorem find?_map_clearDefault (l : List Image) :
    (l.map clearDefault).find? (fun i => i.isDefault) = none := by
  rw [List.find?_eq_none]
  intro x hx
  rcases List.mem_map.mp hx with ⟨a, -, rfl⟩
  simp [clearDefault]

/-- A cleared image list contributes no default-flagged entries. -/
theorem countP_map_clearDefault (l : List Image) :
    (l.map clearDefault).countP (fun i => i.isDefault) = 0 := by
  rw [List.countP_eq_zero]
  intro a ha
  rcases List.mem_map.mp ha with ⟨b, -, rfl⟩
  simp [clearDefault]

/-- C6: image reconciliation is idempotent — applying it twice with the
same canonical default image yields the same image list as applying it
once. -/
theorem reconcileImages_idempotent (images : List Image) (d : Option DefaultImage) :
    reconcileImages (reconcileImages images d) d = reconcileImages images d := by
  cases d with
  | none => rfl
  | some d =>
    by_cases hc : (images.find? (fun i => i.isDefault)).map Image.url = some d.url
    · simp [reconcileImages, hc]
    · have hr : reconcileImages images (some d) =
          images.map clearDefault ++ [Image.mk d.url d.altText true] := by
        simp [reconcileImages, hc]
      have hfind : ((images.map clearDefault ++ [Image.mk d.url d.altText true]).find?
          (fun i => i.isDefault)) = some (Image.mk d.url d.altText true) := by
        rw [List.find?_append, find?_map_clearDefault]
        rfl
      rw [hr]
      simp [reconcileImages, hfind]

/-- C8: with an absent (null) canonical default image no reconciliation
occurs — the image list, including every `isDefault` flag, is returned
exactly as fetched. -/
theorem reconcileImages_none (images : List Image) :
    reconcileImages images none = images := rfl

/-- C7: when the catalog-flagged default image (the first flagged entry,
as found by `Array.find`) has the same URL as the canonical default image,
reconciliation leaves the image list unchanged — no append and no flag
mutation. -/
theorem reconcileImages_matching_default (images : List Image) (d : DefaultImage)
    (img : Image) (hfind : images.find? (fun i => i.isDefault) = some img)
    (hurl : img.url = d.url) :
    reconcileImages images (some d) = images := by
  simp [reconcileImages, hfind, hurl]

/-- Witness for C7 at a concrete one-image list whose flagged entry matches
the canonical URL. -/
theorem reconcileImages_matching_default_witness :
    reconcileImages [Image.mk "u" "a" true] (some (DefaultImage.mk "u" "b")) =
      [Image.mk "u" "a" true] :=
  reconcileImages_matching_default _ _ (Image.mk "u" "a" true) (by decide) (by decide)

/-- C2 (amended): with a non-null canonical default image, reconciliation
leaves exactly one entry flagged default, provided at most one catalog
image was flagged default beforehand. -/
theorem reconcileImages_unique_default (images : List Image) (d : DefaultImage)
    (h : images.countP (fun i => i.isDefault) ≤ 1) :
    (reconcileImages images (some d)).countP (fun i => i.isDefault) = 1 := by
  by_cases hc : (images.find? (fun i => i.isDefault)).map Image.url = some d.url
  · rcases Option.map_eq_some'.mp hc with ⟨img, hfind, -⟩
    have hmem := List.mem_of_find?_eq_some hfind
    have hp := List.find?_some hfind
    have hpos : 0 < images.countP (fun i => i.isDefault) :=
      List.countP_pos_iff.mpr ⟨img, hmem, hp⟩
    have hu : reconcileImages images (some d) = images := by simp [reconcileImages, hc]
    rw [hu]
    omega
  · have hr : reconcileImages images (some d) =
        images.map clearDefault ++ [Image.mk d.url d.altText true] := by
      simp [reconcileImages, hc]
    rw [hr, List.countP_append, countP_map_clearDefault]
    rfl

/-- Witness for the amended C2 at a concrete list with one pre-flagged
image and a differing canonical URL. -/
theorem reconcileImages_unique_default_witness :
    [Image.mk "u" "a" true].countP (fun i => i.isDefault) ≤ 1 ∧
    (reconcileImages [Image.mk "u" "a" true]
        (some (DefaultImage.mk "w" "x"))).countP (fun i => i.isDefault) = 1 :=
  ⟨by decide, reconcileImages_unique_default _ (DefaultImage.mk "w" "x") (by decide)⟩

/-- C2 (counterexample): two catalog images are flagged default and the
first flagged one already matches the canonical URL; reconciliation passes
both flags through, so the resulting list does not have exactly one
default entry. -/
theorem reconcileImages_two_flagged_counterexample :
    (reconcileImages [Image.mk "u" "a" true, Image.mk "v" "b" true]
        (some (DefaultImage.mk "u" "c"))).countP (fun i => i.isDefault) = 2 := by
  decide

/-- C10 (counterexample): a list with two flagged images where the
canonical URL equals the URL of the second flagged image (which is not the
first flagged one, as shown by `find?`) is nevertheless left unchanged,
because the first flagged image's URL also matches. -/
theorem reconcileImages_second_flagged_match_counterexample :
    reconcileImages [Image.mk "u" "a" true, Image.mk "u" "b" true]
        (some (DefaultImage.mk "u" "c")) =
      [Image.mk "u" "a" true, Image.mk "u" "b" true] ∧
    (Image.mk "u" "b" true).isDefault = true ∧
    (Image.mk "u" "b" true).url = (DefaultImage.mk "u" "c").url ∧
    [Image.mk "u" "a" true, Image.mk "u" "b" true].find? (fun i => i.isDefault) =
      some (Image.mk "u" "a" true) ∧
    Image.mk "u" "a" true ≠ Image.mk "u" "b" true := by
  decide

/-- C10 (amended): the no-change test compares the canonical URL only
against the first flagged image; when some non-first flagged image matches
the canonical URL but the first flagged one does not, the list is still
rewritten — all flags cleared and a new flagged entry appended. -/
theorem reconcileImages_rewrites_when_first_flagged_differs (images : List Image)
    (d : DefaultImage) (first img : Image)
    (hfind : images.find? (fun i => i.isDefault) = some first)
    (hne : first.url ≠ d.url)
    (hmem : img ∈ images) (hflag : img.isDefault = true)
    (hurl : img.url = d.url) (hdiff : img ≠ first) :
    reconcileImages images (some d) =
      images.map clearDefault ++ [Image.mk d.url d.altText true] := by
  simp [reconcileImages, hfind, hne]

/-- Witness for the amended C10 at a two-image list whose second flagged
entry matches the canonical URL while the first does not. -/
theorem reconcileImages_rewrites_when_first_flagged_differs_witness :
    reconcileImages [Image.mk "u" "a" true, Image.mk "w" "b" true]
        (some (DefaultImage.mk "w" "c")) =
      [Image.mk "u" "a" true, Image.mk "w" "b" true].map clearDefault ++
        [Image.mk "w" "c" true] :=
  reconcileImages_rewrites_when_first_flagged_differs _ _
    (Image.mk "u" "a" true) (Image.mk "w" "b" true)
    (by decide) (by decide) (by decide) (by decide) (by decide) (by decide)

/-- C1 (amended): for an absent web page both the metadata step and the
render step produce a not-found result, and the product render step does
too; the product metadata step instead returns the empty metadata
object. -/
theorem missingEntity_results (rc : String) :
    webGenerateMetadata none = WebMetaResult.notFound ∧
    webPageRender none rc = WebRender.notFound ∧
    productPageRender none = ProductRender.notFound ∧
    productGenerateMetadata none = MetaResult.meta emptyMetadata :=
  ⟨rfl, rfl, rfl, rfl⟩

/-- C1 (counterexample): for a nonexistent product the metadata-generation
step does not return a not-found result — it returns `{}`. -/
theorem productGenerateMetadata_missing_not_notFound :
    productGenerateMetadata none = MetaResult.meta emptyMetadata ∧
    productGenerateMetadata none ≠ MetaResult.notFound := by
  decide

/-- C3 (counterexample): a price set with equal range endpoints, no retail
price, but sale and base prices present still renders the Was/Now block. -/
theorem priceLines_wasNow_without_retail_counterexample :
    priceLines (Prices.mk 10 10 none (some 30) (some 40) none) =
      [PriceLine.wasLine 40, PriceLine.nowLine 30] ∧
    (Prices.mk 10 10 none (some 30) (some 40) none).retailPrice = none := by
  decide

/-- C3 (amended): when the range branch is not taken, the Was/Now display
is produced whenever both `salePrice` and `basePrice` are present,
independently of the retail price — with no retail price only the MSRP
line is suppressed and the block renders exactly Was/Now. -/
theorem priceLines_wasNow_independent_of_retail (p : Prices) (s b : ℚ)
    (hr : p.priceRangeMin = p.priceRangeMax)
    (hretail : p.retailPrice = none)
    (hs : p.salePrice = some s) (hb : p.basePrice = some b) :
    priceLines p = [PriceLine.wasLine b, PriceLine.nowLine s] := by
  simp [priceLines, hr, hretail, hs, hb]

/-- Witness for the amended C3 at a concrete price set. -/
theorem priceLines_wasNow_independent_of_retail_witness :
    priceLines (Prices.mk 5 5 none (some 3) (some 4) none) =
      [PriceLine.wasLine 4, PriceLine.nowLine 3] :=
  priceLines_wasNow_independent_of_retail _ 3 4 rfl rfl rfl rfl

/-- C4 (counterexample): a plain price that is present with value 0 is
falsy in the JS conditional, so no price line renders at all. -/
theorem priceLines_zero_price_counterexample :
    (Prices.mk 10 10 none none none (some 0)).price = some 0 ∧
    priceLines (Prices.mk 10 10 none none none (some 0)) = [] := by
  decide

/-- C4 (amended): when the range branch is not taken and sale and base
prices are not both present, a present and nonzero plain price is rendered
unstruck (after the optional MSRP line). -/
theorem priceLines_plain_nonzero (p : Prices) (v : ℚ)
    (hr : p.priceRangeMin = p.priceRangeMax)
    (hnb : p.salePrice = none ∨ p.basePrice = none)
    (hp : p.price = some v) (hv : v ≠ 0) :
    priceLines p =
      (match p.retailPrice with
       | some r => [PriceLine.msrpLine r]
       | none => []) ++ [PriceLine.plainLine v] ∧
    (PriceLine.plainLine v).struck = false := by
  refine ⟨?_, rfl⟩
  rcases hnb with hs | hb
  · cases hbp : p.basePrice with
    | none => simp [priceLines, hr, hs, hbp, hp, hv]
    | some b => simp [priceLines, hr, hs, hbp, hp, hv]
  · cases hsp : p.salePrice with
    | none => simp [priceLines, hr, hsp, hb, hp, hv]
    | some s => simp [priceLines, hr, hsp, hb, hp, hv]

/-- Witness for the amended C4 at a concrete price set with an MSRP line
and a nonzero plain price. -/
theorem priceLines_plain_nonzero_witness :
    priceLines (Prices.mk 5 5 (some 9) none (some 4) (some 7)) =
      [PriceLine.msrpLine 9, PriceLine.plainLine 7] ∧
    (PriceLine.plainLine 7).struck = false :=
  priceLines_plain_nonzero (Prices.mk 5 5 (some 9) none (some 4) (some 7)) 7
    rfl (Or.inl rfl) rfl (by decide)

/-- C5 (counterexample): the pair ("2", "Infinity") is kept by the filter —
`Number("Infinity")` is not NaN — although "Infinity" does not parse as an
integer, refuting the only-if direction of the claim. -/
theorem optionValueIds_noninteger_counterexample :
    optionValueIds [("2", JsVal.str "Infinity")] =
      [OptionValueId.mk (JsNum.val 2) JsNum.inf] ∧
    JsNum.inf.isInteger = false := by
  decide

/-- C5 (amended): a (key, value) pair of the search params (other than the
`slug` key) is included in the selection set if and only if neither
component coerces to NaN under `Number` — integer or not; NaN pairs are
excluded without error. -/
theorem optionValueIds_mem_iff (sp : List (String × JsVal)) (k : String) (v : JsVal)
    (hmem : (k, v) ∈ sp) (hk : k ≠ "slug") :
    OptionValueId.mk (jsNumber k) (jsValNumber v) ∈ optionValueIds sp ↔
      (jsNumber k ≠ JsNum.nan ∧ jsValNumber v ≠ JsNum.nan) := by
  unfold optionValueIds
  constructor
  · intro h
    exact of_decide_eq_true (List.mem_filter.mp h).2
  · intro h
    apply List.mem_filter.mpr
    refine ⟨?_, decide_eq_true h⟩
    exact List.mem_map_of_mem _
      (List.mem_filter.mpr ⟨hmem, decide_eq_true hk⟩)

/-- Witness for the amended C5 at a concrete single-pair search-params
record. -/
theorem optionValueIds_mem_iff_witness :
    OptionValueId.mk (jsNumber "3") (jsValNumber (JsVal.str "4")) ∈
      optionValueIds [("3", JsVal.str "4")] :=
  (optionValueIds_mem_iff [("3", JsVal.str "4")] "3" (JsVal.str "4")
      (by decide) (by decide)).mpr (by decide)

/-- C9: a query pair whose key parses as an integer and whose value is the
empty string is not dropped — `Number("")` is `0`, so the pair enters the
selection set with `valueEntityId = 0`. -/
theorem optionValueIds_empty_value_included (sp : List (String × JsVal))
    (k : String) (hmem : (k, JsVal.str "") ∈ sp) (hk : k ≠ "slug")
    (hint : (jsNumber k).isInteger = true) :
    OptionValueId.mk (jsNumber k) (JsNum.val 0) ∈ optionValueIds sp := by
  have hknan : jsNumber k ≠ JsNum.nan := by
    intro h
    rw [h] at hint
    exact absurd hint (by decide)
  unfold optionValueIds
  apply List.mem_filter.mpr
  constructor
  · exact List.mem_map_of_mem _
      (List.mem_filter.mpr ⟨hmem, decide_eq_true hk⟩)
  · exact decide_eq_true ⟨hknan, fun h => JsNum.noConfusion h⟩

/-- Witness for C9 at the concrete pair ("134", ""). -/
theorem optionValueIds_empty_value_included_witness :
    OptionValueId.mk (jsNumber "134") (JsNum.val 0) ∈
      optionValueIds [("134", JsVal.str "")] :=
  optionValueIds_empty_value_included [("134", JsVal.str "")] "134"
    (by decide) (by decide) (by decide)
